import Mathlib

/-!
Verification of the architecture-construction module of a dual-encoder
CLIP-style vision-language model (`open_clip/model.py`).

The Python source is shallowly embedded:
* state dicts become association lists `List (String × α)` (Python dicts
  have unique keys, so `dict.pop` is entry removal);
* integer arithmetic is `Nat`/`Int` (all the divisions in scope are on
  positive operands, where Python's floor division `//` agrees with `Nat.div`);
* tensors in the slot-decomposition code become functions `ℕ → ℝ`, with the
  widths carried separately, and the elementwise/reduction kernels of the
  tensor runtime (`softmax`, `normalize`, `norm`, `exp`, `sqrt`) are spelled
  out over ℝ with PyTorch's documented semantics (`F.normalize` clamps the
  denominator by `eps = 1e-12`; `torch.norm` and plain `/` do not);
* code paths that raise become `Except PyError`.
-/

/-- The Python exception kinds raised by the module under study. -/
inductive PyError where
  | assertionError : PyError
  | valueError : String → PyError
  | notImplementedError : PyError
  deriving Repr, DecidableEq

/-! ## State dicts as association lists -/

/-- `dict.pop(key, None)`: remove the entry for `key` if present.
Python dict keys are unique, so filtering removes at most one entry. -/
def popKey (sd : List (String × α)) (k : String) : List (String × α) :=
  sd.filter (fun kv => kv.1 ≠ k)

/-- `state_dict[key] = v`: overwrite the value stored at an existing key. -/
def setKey (sd : List (String × α)) (k : String) (v : α) : List (String × α) :=
  sd.map (fun kv => if kv.1 = k then (kv.1, v) else kv)

/-! ## Python string primitives

Embedded over character lists so that they evaluate inside the kernel
(`String.splitOn`, `String.startsWith` and `String.endsWith` are defined by
well-founded recursion on byte positions and do not reduce definitionally). -/

/-- `s.split(sep)` for a one-character separator: split on every occurrence,
keeping empty parts, like Python's `str.split`. -/
def pySplit (s : String) (sep : Char) : List String :=
  (s.toList.splitOn sep).map (fun cs => String.mk cs)

/-- `s.startswith(p)`. -/
def pyStartsWith (s p : String) : Bool :=
  p.toList.isPrefixOf s.toList

/-- `s.endswith(p)`. -/
def pyEndsWith (s p : String) : Bool :=
  p.toList.isSuffixOf s.toList

/-- The metadata-stripping loop of `build_model_from_openai_state_dict`
(model.py lines 663-664):
`for key in ["input_resolution", "context_length", "vocab_size"]:
    state_dict.pop(key, None)`. -/
def strip_metadata_keys (sd : List (String × α)) : List (String × α) :=
  ["input_resolution", "context_length", "vocab_size"].foldl popKey sd

/-- A concrete legacy state dict carrying all three scalar metadata keys. -/
def metadataOnlyDict : List (String × Nat) :=
  [("input_resolution", 224), ("context_length", 77), ("vocab_size", 49408)]

/-- C1, counterexample: on a dict holding the three scalar metadata keys,
the stripping step of `build_model_from_openai_state_dict` removes three
entries, not exactly two as claimed. -/
theorem c1_counterexample :
    strip_metadata_keys metadataOnlyDict = [] ∧
    metadataOnlyDict.length - (strip_metadata_keys metadataOnlyDict).length ≠ 2 := by
  constructor
  · rfl
  · decide

/-- C1, amended: for every legacy state dict, `build_model_from_openai_state_dict`
strips exactly the three now-unused scalar metadata keys `input_resolution`,
`context_length` and `vocab_size` from the dict when they are present (and
nothing else), before precision conversion and the strict key-matched load. -/
theorem c1_strip_exactly_three (sd : List (String × Nat)) :
    strip_metadata_keys sd =
      sd.filter (fun kv =>
        kv.1 ∉ ["input_resolution", "context_length", "vocab_size"]) := by
  unfold strip_metadata_keys popKey
  simp only [List.foldl_cons, List.foldl_nil, List.filter_filter]
  congr 1
  funext kv
  by_cases h1 : kv.1 = "input_resolution" <;>
    by_cases h2 : kv.1 = "context_length" <;>
      by_cases h3 : kv.1 = "vocab_size" <;>
        simp [h1, h2, h3]

/-! ## Tower factories (`_build_vision_tower`, `_build_text_tower`)

The concrete tower classes (`TimmModel`, `ModifiedResNet`, `VisionTransformer`,
`SPAROVisionTransformer`, `TextTransformer`, ...) are out-of-scope external
collaborators; the factory's job is only to select a variant and compute the
constructor arguments that involve logic (head counts, depth reduction).
Towers are therefore embedded as a tagged variant recording those arguments;
configuration fields that are merely forwarded verbatim (dropout rates,
pooling flags, timm options, activation/normalization choice) are elided. -/

/-- `CLIPVisionCfg`: `layers` is either a 4-tuple (residual backbone) or a
scalar (transformer backbone), mirroring the `isinstance(..., (tuple, list))`
dispatch. Layer counts are `Int` because Python subtraction does not truncate. -/
structure CLIPVisionCfg where
  layers : (Int × Int × Int × Int) ⊕ Int
  width : Nat := 768
  head_width : Nat := 64
  patch_size : Nat := 16
  image_size : Nat := 224
  timm_model_name : Option String := none
  deriving Repr, DecidableEq

/-- `CLIPTextCfg` (fields that carry logic in this module). -/
structure CLIPTextCfg where
  context_length : Nat := 77
  vocab_size : Nat := 49408
  width : Nat := 512
  heads : Nat := 8
  layers : Int := 12
  hf_model_name : Option String := none
  deriving Repr, DecidableEq

/-- The tower variants the factories can instantiate, tagged with the
constructor arguments computed by factory logic. -/
inductive Tower where
  | timmModel (embed_dim image_size : Nat)
  | modifiedResNet (layers : Int × Int × Int × Int) (output_dim heads image_size width : Nat)
  | sparoVisionTransformer (width : Nat) (layers : Int) (heads L V output_dim : Nat)
  | visionTransformer (width : Nat) (layers : Int) (heads output_dim : Nat) (use_codebook : Bool)
  | hfTextEncoder (output_dim : Nat)
  | sparoTextTransformer (width : Nat) (layers : Int) (heads L V output_dim : Nat)
  | textTransformer (context_length vocab_size width : Nat) (layers : Int) (heads output_dim : Nat) (use_codebook : Bool)
  deriving Repr, DecidableEq

/-- The head count the factory stored in the tower it built (0 for towers
whose head count is not derived by the factory). -/
def Tower.headsOf : Tower → Nat
  | .modifiedResNet _ _ h _ _ => h
  | .sparoVisionTransformer _ _ h _ _ _ => h
  | .visionTransformer _ _ h _ _ => h
  | .sparoTextTransformer _ _ h _ _ _ => h
  | .textTransformer _ _ _ _ h _ _ => h
  | _ => 0

/-- `_build_vision_tower` (model.py lines 90-187).  The only raise on these
paths is the `assert not use_sparo` guarding the residual backbone (line 127).
Head counts: `width * 32 // head_width` on the residual path (line 128),
`width // head_width` on the transformer path (line 137) — Python floor
division on positive ints, i.e. `Nat.div`.  Depth reduction subtracts
`reduce_depth` from the scalar layer count (lines 144, 170) and from the
third stage of the residual backbone (line 130). -/
def _build_vision_tower (embed_dim : Nat) (vision_cfg : CLIPVisionCfg)
    (use_sparo : Bool) (L V : Nat) (reduce_depth : Int) (use_codebook : Bool) :
    Except PyError Tower :=
  if vision_cfg.timm_model_name.isSome then
    .ok (.timmModel embed_dim vision_cfg.image_size)
  else
    match vision_cfg.layers with
    | .inl t =>
        if use_sparo then .error .assertionError
        else
          .ok (.modifiedResNet (t.1, t.2.1, t.2.2.1 - reduce_depth, t.2.2.2)
            embed_dim (vision_cfg.width * 32 / vision_cfg.head_width)
            vision_cfg.image_size vision_cfg.width)
    | .inr n =>
        let vision_heads := vision_cfg.width / vision_cfg.head_width
        if use_sparo then
          .ok (.sparoVisionTransformer vision_cfg.width (n - reduce_depth)
            vision_heads L V embed_dim)
        else
          .ok (.visionTransformer vision_cfg.width (n - reduce_depth)
            vision_heads embed_dim use_codebook)

/-- `_build_text_tower` (model.py lines 190-266); no path raises. -/
def _build_text_tower (embed_dim : Nat) (text_cfg : CLIPTextCfg)
    (use_sparo : Bool) (L V : Nat) (reduce_depth : Int) (use_codebook : Bool) :
    Tower :=
  if text_cfg.hf_model_name.isSome then .hfTextEncoder embed_dim
  else if use_sparo then
    .sparoTextTransformer text_cfg.width (text_cfg.layers - reduce_depth)
      text_cfg.heads L V embed_dim
  else
    .textTransformer text_cfg.context_length text_cfg.vocab_size text_cfg.width
      (text_cfg.layers - reduce_depth) text_cfg.heads embed_dim use_codebook

/-- A vision config whose width (64) is not divisible by its head width (48),
on the transformer path. -/
def nondivisibleVisionCfg : CLIPVisionCfg :=
  { layers := .inr 12, width := 64, head_width := 48 }

/-- C2, counterexample: with width 64 and head width 48 (non-exact ratio,
transformer path), `_build_vision_tower` succeeds and silently floors the
head count to 1 instead of failing with a configuration error. -/
theorem c2_counterexample :
    (64 % 48 ≠ 0) ∧
    _build_vision_tower 512 nondivisibleVisionCfg false 0 0 0 false =
      .ok (.visionTransformer 64 12 1 512 false) := by
  exact ⟨by decide, rfl⟩

/-- C2, amended: `_build_vision_tower` performs no divisibility check on the
head-count derivation: on the residual path it always succeeds (when sparo
mode is off, the only assert on that path) with heads = width * 32 floor-divided
by head_width, and on the transformer path it always succeeds with
heads = width floor-divided by head_width — non-exact ratios are silently
floored, not rejected. -/
theorem c2_heads_floored (embed_dim : Nat) (cfg : CLIPVisionCfg) (L V : Nat)
    (rd : Int) (uc : Bool) (hntimm : cfg.timm_model_name = none)
    (_hhw : 0 < cfg.head_width) :
    (∀ t4, cfg.layers = Sum.inl t4 →
      ∃ t, _build_vision_tower embed_dim cfg false L V rd uc = .ok t ∧
        t.headsOf = cfg.width * 32 / cfg.head_width) ∧
    (∀ n us, cfg.layers = Sum.inr n →
      ∃ t, _build_vision_tower embed_dim cfg us L V rd uc = .ok t ∧
        t.headsOf = cfg.width / cfg.head_width) := by
  constructor
  · intro t4 hl
    exact ⟨.modifiedResNet (t4.1, t4.2.1, t4.2.2.1 - rd, t4.2.2.2) embed_dim
        (cfg.width * 32 / cfg.head_width) cfg.image_size cfg.width,
      by simp [_build_vision_tower, hntimm, hl], rfl⟩
  · intro n us hl
    cases us
    · exact ⟨.visionTransformer cfg.width (n - rd) (cfg.width / cfg.head_width)
          embed_dim uc,
        by simp [_build_vision_tower, hntimm, hl], rfl⟩
    · exact ⟨.sparoVisionTransformer cfg.width (n - rd) (cfg.width / cfg.head_width)
          L V embed_dim,
        by simp [_build_vision_tower, hntimm, hl], rfl⟩

/-- C2 witness: the amended statement evaluated on the concrete non-divisible
config: construction succeeds and the head count is the floored ratio 64/48 = 1. -/
theorem c2_heads_floored_witness :
    ∃ t, _build_vision_tower 512 nondivisibleVisionCfg false 0 0 0 false = .ok t ∧
      t.headsOf = 64 / 48 :=
  (c2_heads_floored 512 nondivisibleVisionCfg 0 0 0 false rfl (by decide)).2 12 false rfl

/-! ## `CLIP.__init__` (model.py lines 272-373)

The constructor is embedded as a function returning the sequence of
tower-construction events it performed (in order) together with either the
constructed model or the exception it raised; raising short-circuits, so an
exception leaves later events unemitted.  Attribute hoisting, the shared
codebook allocation and the logit-scale initialisation touch only external
submodules and are not needed by any claim; the fields retained are the ones
the encode paths read. -/

/-- Construction-sequence events of `CLIP.__init__`. -/
inductive InitEvent where
  | builtVisionTower
  | builtTextTower
  deriving Repr, DecidableEq

/-- The composite model state read by the encode paths. -/
structure CLIPModel where
  embed_dim : Nat
  use_sparo : Bool
  L : Nat
  V : Nat
  model_V : Nat
  sparo_type : String
  use_codebook : Bool
  bottleneck_dim : Option Nat
  visual : Tower
  text : Tower
  deriving Repr, DecidableEq

/-- Python's truthiness-based `a or b` on `bottleneck_dim or embed_dim`
(model.py lines 313, 328): `None` and `0` both fall through to `embed_dim`. -/
def pyOrNat (a : Option Nat) (b : Nat) : Nat :=
  match a with
  | some x => if x = 0 then b else x
  | none => b

/-- `CLIP.__init__`: the mutual-exclusion check on line 304 precedes
everything else that can construct state; `model_V` is `V + 1` exactly when
sparo mode is on and `sparo_type` ends with `"softmax"` (lines 307-310, note
`"sqrtsoftmax"` also ends with `"softmax"`); towers are then built vision
first, text second (lines 312-341). -/
def CLIP_init (embed_dim : Nat) (vision_cfg : CLIPVisionCfg) (text_cfg : CLIPTextCfg)
    (use_sparo : Bool) (L V : Nat) (reduce_depth : Int) (sparo_type : String)
    (use_codebook : Bool) (bottleneck_dim : Option Nat) :
    List InitEvent × Except PyError CLIPModel :=
  if use_sparo && use_codebook then
    ([], .error (.valueError "SPARO and codebook cannot be used together yet."))
  else
    let model_V := if !use_sparo || !(pyEndsWith sparo_type "softmax") then V else V + 1
    match _build_vision_tower (pyOrNat bottleneck_dim embed_dim) vision_cfg
        use_sparo L model_V reduce_depth use_codebook with
    | .error e => ([], .error e)
    | .ok visual =>
        let text := _build_text_tower (pyOrNat bottleneck_dim embed_dim) text_cfg
          use_sparo L model_V reduce_depth use_codebook
        ([.builtVisionTower, .builtTextTower],
          .ok { embed_dim := embed_dim, use_sparo := use_sparo, L := L, V := V,
                model_V := model_V, sparo_type := sparo_type,
                use_codebook := use_codebook, bottleneck_dim := bottleneck_dim,
                visual := visual, text := text })

/-- C3: for every combination of constructor arguments with both sparo and
codebook modes requested, `CLIP.__init__` raises the mutual-exclusion
`ValueError` with an empty construction trace: no tower was built and no
(partial) model is returned. -/
theorem c3_sparo_codebook_mutually_exclusive (embed_dim : Nat)
    (vision_cfg : CLIPVisionCfg) (text_cfg : CLIPTextCfg) (L V : Nat)
    (reduce_depth : Int) (sparo_type : String) (bottleneck_dim : Option Nat) :
    CLIP_init embed_dim vision_cfg text_cfg true L V reduce_depth sparo_type
        true bottleneck_dim =
      ([], .error (.valueError "SPARO and codebook cannot be used together yet.")) := by
  rfl

/-! ## Slot decomposition (`CLIP._project_for_sparo`, model.py lines 384-416)

Tensors become functions `ℕ → ℝ` (flat vectors) or `ℕ → ℕ → ℝ` (slot-indexed
families), with the meaningful widths carried separately; entries beyond the
width are irrelevant to every statement.  The tensor-runtime kernels are
spelled out over ℝ: `F.softmax` and `F.normalize` reduce over the given axis,
`F.normalize` clamps its denominator below by `eps = 1e-12` (its documented
default), while `torch.norm` and the plain division on the "norm" weighting
path have no such clamp. -/

noncomputable section

/-- The `eps` denominator floor of `F.normalize`. -/
def normEps : ℝ := 1 / 10 ^ 12

/-- `torch.norm` (L2) over the first `n` entries. -/
def l2norm (n : ℕ) (f : ℕ → ℝ) : ℝ :=
  Real.sqrt (∑ j ∈ Finset.range n, f j ^ 2)

/-- `F.normalize` over an axis of size `n`. -/
def l2normalize (n : ℕ) (f : ℕ → ℝ) : ℕ → ℝ :=
  fun i => f i / max (l2norm n f) normEps

/-- `F.softmax` over an axis of size `n`. -/
def softmax (n : ℕ) (f : ℕ → ℝ) : ℕ → ℝ :=
  fun i => Real.exp (f i) / ∑ j ∈ Finset.range n, Real.exp (f j)

/-- `x.view(*x.shape[:-1], L, model_V)` (line 385): slot `l`, channel `c`
reads flat index `l * model_V + c`. -/
def slotView (model_V : ℕ) (x : ℕ → ℝ) : ℕ → ℕ → ℝ :=
  fun l c => x (l * model_V + c)

/-- `out.view(*out.shape[:-2], -1)`: flatten an `(L, V)` slot family back to
one flat vector. -/
def flattenSlots (V : ℕ) (y : ℕ → ℕ → ℝ) : ℕ → ℝ :=
  fun i => y (i / V) (i % V)

/-- The weighting stage of `_project_for_sparo` (lines 388-406): produces the
per-slot scalar weights, the value family (with the importance channel
dropped on the softmax-based weightings), and the resulting value width.
On the "norm" weighting, `full_norm` is `torch.norm` of the flattened
`(L * model_V)`-vector and the division carries no `eps` clamp (lines
401-402). -/
def sparoWeightsValues (L model_V : ℕ) (rep_type norm_type : String)
    (x : ℕ → ℕ → ℝ) : Except PyError ((ℕ → ℝ) × (ℕ → ℕ → ℝ) × ℕ) :=
  if norm_type = "sqrtsoftmax" then
    .ok (fun l => Real.sqrt (softmax L (fun j => x j 0) l),
         fun l c => x l (c + 1), model_V - 1)
  else if norm_type = "softmax" then
    .ok (l2normalize L (softmax L (fun j => x j 0)),
         fun l c => x l (c + 1), model_V - 1)
  else if norm_type = "norm" then
    (if rep_type = "cont" then
        (.ok x : Except PyError (ℕ → ℕ → ℝ))
      else if rep_type = "sqrtsem" then
        .ok (fun l c => Real.exp (x l c / 2))
      else .error .notImplementedError).map (fun norm_in =>
      (fun l => l2norm model_V (norm_in l) /
          l2norm (L * model_V) (fun i => norm_in (i / model_V) (i % model_V)),
       x, model_V))
  else if norm_type = "const" then
    .ok (fun _ => Real.sqrt (1 / (L : ℝ)), x, model_V)
  else .error .notImplementedError

/-- The representation stage of `_project_for_sparo` (lines 407-414) on a
value family of width `V`. -/
def sparoOutRep (V : ℕ) (rep_type : String) (x : ℕ → ℕ → ℝ) :
    Except PyError (ℕ → ℕ → ℝ) :=
  if rep_type = "cont" then .ok (fun l => l2normalize V (x l))
  else if rep_type = "sqrtsem" then .ok (fun l c => Real.sqrt (softmax V (x l) c))
  else if rep_type = "sem" then .ok (fun l => l2normalize V (softmax V (x l)))
  else .error .notImplementedError

/-- `CLIP._project_for_sparo` on a flat input vector: split the mode tag
(Python tuple unpacking of `sparo_type.split(":")` raises `ValueError` unless
there are exactly two parts), reshape to `(L, model_V)`, run the weighting
stage then the representation stage, and scale the value vectors by the
per-slot weights.  Returns the `(L, outV)` output family together with the
value width `outV`. -/
def _project_for_sparo (L model_V : ℕ) (sparo_type : String) (xflat : ℕ → ℝ) :
    Except PyError ((ℕ → ℕ → ℝ) × ℕ) :=
  match pySplit sparo_type ':' with
  | [rep_type, norm_type] =>
      let x := slotView model_V xflat
      (sparoWeightsValues L model_V rep_type norm_type x).bind (fun wv =>
        (sparoOutRep wv.2.2 rep_type wv.2.1).bind (fun out_rep =>
          .ok (fun l c => out_rep l c * wv.1 l, wv.2.2)))
  | _ => .error (.valueError "unpack")

/-- C10: for every input, the tag `"sem:norm"` (representation `"sem"` with
weighting `"norm"`) makes `_project_for_sparo` raise `NotImplementedError`,
even though `"sem"` is accepted with every other weighting and `"norm"` is
accepted with representations `"cont"` and `"sqrtsem"`. -/
theorem c10_sem_norm_not_implemented (L model_V : ℕ) (x : ℕ → ℝ) :
    _project_for_sparo L model_V "sem:norm" x = .error .notImplementedError ∧
    (_project_for_sparo L model_V "sem:const" x).isOk = true ∧
    (_project_for_sparo L model_V "sem:softmax" x).isOk = true ∧
    (_project_for_sparo L model_V "sem:sqrtsoftmax" x).isOk = true ∧
    (_project_for_sparo L model_V "cont:norm" x).isOk = true ∧
    (_project_for_sparo L model_V "sqrtsem:norm" x).isOk = true := by
  refine ⟨rfl, rfl, rfl, rfl, rfl, rfl⟩

end

noncomputable section

/-- A softmax entry is strictly positive (positive numerator over a positive
sum) when the axis is nonempty. -/
lemma softmax_pos (n : ℕ) (f : ℕ → ℝ) (hn : 0 < n) (i : ℕ) :
    0 < softmax n f i := by
  have hsum : 0 < ∑ j ∈ Finset.range n, Real.exp (f j) :=
    Finset.sum_pos (fun j _ => Real.exp_pos _) (Finset.nonempty_range_iff.mpr hn.ne')
  exact div_pos (Real.exp_pos _) hsum

/-- Softmax entries sum to one over the reduced axis. -/
lemma softmax_sum_one (n : ℕ) (f : ℕ → ℝ) (hn : 0 < n) :
    ∑ j ∈ Finset.range n, softmax n f j = 1 := by
  have hsum : 0 < ∑ j ∈ Finset.range n, Real.exp (f j) :=
    Finset.sum_pos (fun j _ => Real.exp_pos _) (Finset.nonempty_range_iff.mpr hn.ne')
  unfold softmax
  rw [← Finset.sum_div]
  exact div_self hsum.ne'

/-- `F.normalize` on a positive vector of unit sum yields a unit vector: by
Cauchy-Schwarz its L2 norm is at least `sqrt(1/n)`, which clears the
`eps = 1e-12` clamp as long as `n ≤ 10^24`, so the renormalization divides
by the exact norm. -/
lemma l2norm_l2normalize_of_sum_one (n : ℕ) (f : ℕ → ℝ) (hn : 0 < n)
    (hnb : n ≤ 10 ^ 24) (hf : ∀ j, 0 < f j)
    (hsum : ∑ j ∈ Finset.range n, f j = 1) :
    l2norm n (l2normalize n f) = 1 := by
  have hne : (Finset.range n).Nonempty := Finset.nonempty_range_iff.mpr hn.ne'
  have hsq_pos : 0 < ∑ j ∈ Finset.range n, f j ^ 2 :=
    Finset.sum_pos (fun j _ => pow_pos (hf j) 2) hne
  have hcs : (∑ j ∈ Finset.range n, f j) ^ 2 ≤
      (Finset.range n).card * ∑ j ∈ Finset.range n, f j ^ 2 :=
    sq_sum_le_card_mul_sum_sq
  rw [hsum, Finset.card_range, one_pow] at hcs
  have hnR : (0 : ℝ) < n := Nat.cast_pos.mpr hn
  have hsq_lb : 1 / (n : ℝ) ≤ ∑ j ∈ Finset.range n, f j ^ 2 := by
    rw [div_le_iff₀ hnR]
    calc (1 : ℝ) ≤ n * ∑ j ∈ Finset.range n, f j ^ 2 := hcs
    _ = (∑ j ∈ Finset.range n, f j ^ 2) * n := mul_comm _ _
  have hnorm_sq : l2norm n f ^ 2 = ∑ j ∈ Finset.range n, f j ^ 2 :=
    Real.sq_sqrt hsq_pos.le
  have heps_sq : normEps ^ 2 ≤ ∑ j ∈ Finset.range n, f j ^ 2 := by
    have h1 : normEps ^ 2 = 1 / 10 ^ 24 := by norm_num [normEps]
    have h2 : (1 : ℝ) / 10 ^ 24 ≤ 1 / (n : ℝ) := by
      apply one_div_le_one_div_of_le hnR
      have h3 : ((n : ℕ) : ℝ) ≤ ((10 ^ 24 : ℕ) : ℝ) := Nat.cast_le.mpr hnb
      push_cast at h3
      linarith
    linarith
  have heps_le : normEps ≤ l2norm n f := by
    have h0 : normEps = Real.sqrt (normEps ^ 2) :=
      (Real.sqrt_sq (by norm_num [normEps])).symm
    rw [h0]
    exact Real.sqrt_le_sqrt heps_sq
  have hmax : max (l2norm n f) normEps = l2norm n f := max_eq_left heps_le
  unfold l2norm l2normalize
  rw [hmax]
  have hone : ∑ j ∈ Finset.range n, (f j / l2norm n f) ^ 2 = 1 := by
    simp only [div_pow, ← Finset.sum_div]
    rw [hnorm_sq]
    exact div_self hsq_pos.ne'
  rw [hone, Real.sqrt_one]

/-- C5: for every input, with weighting tag "softmax" the weighting stage of
`_project_for_sparo` softmaxes the first channel across the L slots, then
L2-renormalizes across slots, dropping that channel from the value vectors
(width `model_V - 1`), and the resulting per-slot weight vector has L2 norm
exactly 1 along the slot axis.  (`0 < L ≤ 10^24` makes the softmax norm,
which is at least `sqrt(1/L)`, clear the `eps = 1e-12` floor of
`F.normalize`.) -/
theorem c5_softmax_weights_unit_norm (L model_V : ℕ) (rep_type : String)
    (x : ℕ → ℕ → ℝ) (hL : 0 < L) (hLB : L ≤ 10 ^ 24) :
    sparoWeightsValues L model_V rep_type "softmax" x =
      .ok (l2normalize L (softmax L (fun j => x j 0)),
           fun l c => x l (c + 1), model_V - 1) ∧
    l2norm L (l2normalize L (softmax L (fun j => x j 0))) = 1 := by
  constructor
  · rfl
  · exact l2norm_l2normalize_of_sum_one L (softmax L (fun j => x j 0)) hL hLB
      (softmax_pos L _ hL) (softmax_sum_one L _ hL)

/-- C5 witness: the softmax-weighting invariant evaluated at L = 4 slots,
model width 3, on the zero input. -/
theorem c5_softmax_weights_unit_norm_witness :
    sparoWeightsValues 4 3 "cont" "softmax" (fun _ _ => (0 : ℝ)) =
      .ok (l2normalize 4 (softmax 4 (fun j => (fun _ _ => (0 : ℝ)) j 0)),
           fun l c => (fun _ _ => (0 : ℝ)) l (c + 1), 3 - 1) ∧
    l2norm 4 (l2normalize 4 (softmax 4 (fun j => (fun _ _ => (0 : ℝ)) j 0))) = 1 :=
  c5_softmax_weights_unit_norm 4 3 "cont" (fun _ _ => 0) (by norm_num) (by norm_num)

/-- Modelled from the spec (§4.4 and testable property 3): "the per-slot
normalization of the original vector" — each length-V block of the flat
vector is transformed in place by the chosen representation mode
("cont": L2-normalize the block; "sem": L2-normalize the softmax of the
block). -/
def perSlotNormalization (V : ℕ) (rep_type : String) (x : ℕ → ℝ) : ℕ → ℝ :=
  fun i =>
    if rep_type = "cont" then
      l2normalize V (fun c => x (i / V * V + c)) (i % V)
    else if rep_type = "sem" then
      l2normalize V (softmax V (fun c => x (i / V * V + c))) (i % V)
    else 0

/-- C4: with weighting "const" and representation "cont" or "sem",
`_project_for_sparo` succeeds with value width V, and flattening its (L, V)
output back into one vector reproduces the per-slot normalization of the
original flat vector scaled by `sqrt(1/L)`, at every index of the L·V
vector, for L ∈ {1, 4, 16}. -/
theorem c4_const_roundtrip (L V : ℕ) (rep_type : String)
    (hL : L = 1 ∨ L = 4 ∨ L = 16) (hrep : rep_type = "cont" ∨ rep_type = "sem")
    (x : ℕ → ℝ) (i : ℕ) (_hi : i < L * V) :
    ∃ out, _project_for_sparo L V (rep_type ++ ":const") x = .ok (out, V) ∧
      flattenSlots V out i =
        Real.sqrt (1 / (L : ℝ)) * perSlotNormalization V rep_type x i := by
  rcases hrep with hrep | hrep <;> rcases hL with hL | hL | hL <;>
    subst hrep <;> subst hL <;> exact ⟨_, rfl, mul_comm _ _⟩

/-- C4 witness: the round-trip at L = 4, V = 2, representation "cont", zero
input, flat index 3. -/
theorem c4_const_roundtrip_witness :
    ∃ out, _project_for_sparo 4 2 ("cont" ++ ":const") (fun _ => (0 : ℝ)) =
        .ok (out, 2) ∧
      flattenSlots 2 out 3 =
        Real.sqrt (1 / ((4 : ℕ) : ℝ)) *
          perSlotNormalization 2 "cont" (fun _ => (0 : ℝ)) 3 :=
  c4_const_roundtrip 4 2 "cont" (Or.inr (Or.inl rfl)) (Or.inl rfl)
    (fun _ => 0) 3 (by norm_num)

end

/-! ## `CLIP.encode_image` / `CLIP.encode_text` (model.py lines 418-485)

The towers and the hoisted external submodules (codebook query models,
bottleneck projections, token embedding / transformer stack / final layer
norm / attentional pooler / EOT gather / text projection) are out-of-scope
collaborators and enter as function parameters; the embedding keeps the
branch structure, the asserts and the `_project_for_sparo` call. -/

noncomputable section

/-- The value an encode call returns when it does not raise. -/
inductive EncodeOut where
  | features (f : ℕ → ℝ)
  | structured (out : ℕ → ℕ → ℝ) (outV : ℕ)
  | structuredWithAttn (out : ℕ → ℕ → ℝ) (outV : ℕ) (attn : ℕ → ℝ)

/-- `CLIP.encode_image`: `visual_plain` is the vision-tower output in plain
mode, `visual_sparo` the `(out, attn)` pair it returns in sparo mode,
`img_query` the codebook query model (with the space dict already bound) and
`bottleproj` the vision bottleneck projection. -/
def encode_image (m : CLIPModel) (img_query bottleproj : (ℕ → ℝ) → ℕ → ℝ)
    (visual_plain : ℕ → ℝ) (visual_sparo : (ℕ → ℝ) × (ℕ → ℝ))
    (normalize return_sparo return_attn : Bool) : Except PyError EncodeOut :=
  if !m.use_sparo then
    let features := if m.use_codebook then img_query visual_plain else visual_plain
    let features :=
      if m.bottleneck_dim.isSome then bottleproj features else features
    .ok (.features (if normalize then l2normalize m.embed_dim features else features))
  else
    if !normalize then .error .assertionError
    else
      (_project_for_sparo m.L m.model_V m.sparo_type visual_sparo.1).bind
        (fun po =>
          if return_sparo then
            if return_attn then .ok (.structuredWithAttn po.1 po.2 visual_sparo.2)
            else .ok (.structured po.1 po.2)
          else .ok (.features (flattenSlots po.2 po.1)))

/-- `CLIP.encode_text`: `x` is the hidden-state matrix (token index × channel)
after the embedding/transformer prefix and permutes (line 447);
`text_attn_pool` the optional attentional pooler (applied at the EOT
positions), `ln_final` the final layer norm, `gap` the hoisted
`text_global_average_pool` flag, `mean_tokens` / `first_token` / `eot_select`
the three pooled-feature selections, `text_proj` the `@ text_projection` map,
`txt_query` the codebook query model, `bottleproj` the text bottleneck
projection, and `text_sparo_head` the sparo head returning `(out, attn)` with
`out` already viewed as a flat `L * model_V` vector (line 476). -/
def encode_text (m : CLIPModel) (x : ℕ → ℕ → ℝ)
    (text_attn_pool : Option ((ℕ → ℕ → ℝ) → ℕ → ℕ → ℝ))
    (ln_final : (ℕ → ℕ → ℝ) → ℕ → ℕ → ℝ) (gap : Bool)
    (mean_tokens first_token eot_select : (ℕ → ℕ → ℝ) → ℕ → ℝ)
    (text_proj : (ℕ → ℝ) → ℕ → ℝ) (txt_query : (ℕ → ℕ → ℝ) → ℕ → ℝ)
    (bottleproj : (ℕ → ℝ) → ℕ → ℝ)
    (text_sparo_head : (ℕ → ℕ → ℝ) → (ℕ → ℝ) × (ℕ → ℝ))
    (normalize return_sparo return_attn : Bool) : Except PyError EncodeOut :=
  let x1 :=
    if !m.use_codebook then
      ln_final (match text_attn_pool with
        | some pool => pool x
        | none => x)
    else x
  if !m.use_sparo then
    if !m.use_codebook then
      (match text_attn_pool with
        | some _ =>
            (.ok (if gap then mean_tokens x1 else first_token x1) :
              Except PyError (ℕ → ℝ))
        | none =>
            if gap then .error .notImplementedError
            else .ok (eot_select x1)).bind (fun pooled =>
        let xv := text_proj pooled
        let xv := if m.bottleneck_dim.isSome then bottleproj xv else xv
        .ok (.features (if normalize then l2normalize m.embed_dim xv else xv)))
    else
      let xv := txt_query x1
      let xv := if m.bottleneck_dim.isSome then bottleproj xv else xv
      .ok (.features (if normalize then l2normalize m.embed_dim xv else xv))
  else
    if !normalize then .error .assertionError
    else
      (_project_for_sparo m.L m.model_V m.sparo_type (text_sparo_head x1).1).bind
        (fun po =>
          if return_sparo then
            if return_attn then
              .ok (.structuredWithAttn po.1 po.2 (text_sparo_head x1).2)
            else .ok (.structured po.1 po.2)
          else .ok (.features (flattenSlots po.2 po.1)))

/-- C9: on every model in sparo mode, `encode_image` and `encode_text` called
with `normalize = false` fail the `assert normalize` precondition — for
either value of `return_sparo` (and `return_attn`) — and return no feature
tensor. -/
theorem c9_sparo_requires_normalize (m : CLIPModel) (hsp : m.use_sparo = true)
    (img_query bottleproj : (ℕ → ℝ) → ℕ → ℝ) (visual_plain : ℕ → ℝ)
    (visual_sparo : (ℕ → ℝ) × (ℕ → ℝ)) (x : ℕ → ℕ → ℝ)
    (text_attn_pool : Option ((ℕ → ℕ → ℝ) → ℕ → ℕ → ℝ))
    (ln_final : (ℕ → ℕ → ℝ) → ℕ → ℕ → ℝ) (gap : Bool)
    (mean_tokens first_token eot_select : (ℕ → ℕ → ℝ) → ℕ → ℝ)
    (text_proj : (ℕ → ℝ) → ℕ → ℝ) (txt_query : (ℕ → ℕ → ℝ) → ℕ → ℝ)
    (tbottleproj : (ℕ → ℝ) → ℕ → ℝ)
    (text_sparo_head : (ℕ → ℕ → ℝ) → (ℕ → ℝ) × (ℕ → ℝ))
    (return_sparo return_attn : Bool) :
    encode_image m img_query bottleproj visual_plain visual_sparo
        false return_sparo return_attn = .error .assertionError ∧
    encode_text m x text_attn_pool ln_final gap mean_tokens first_token
        eot_select text_proj txt_query tbottleproj text_sparo_head
        false return_sparo return_attn = .error .assertionError := by
  constructor
  · simp [encode_image, hsp]
  · simp [encode_text, hsp]

/-- A concrete sparo-mode composite model (4 slots of width 3,
"cont:const" decomposition). -/
def sparoModelExample : CLIPModel :=
  { embed_dim := 512, use_sparo := true, L := 4, V := 3, model_V := 3,
    sparo_type := "cont:const", use_codebook := false, bottleneck_dim := none,
    visual := .sparoVisionTransformer 768 12 12 4 3 512,
    text := .sparoTextTransformer 512 12 8 4 3 512 }

/-- C9 witness: the sparo-mode example model with `normalize = false` and
`return_sparo = true` makes both encode calls raise the assertion. -/
theorem c9_sparo_requires_normalize_witness :
    encode_image sparoModelExample (fun f => f) (fun f => f) (fun _ => 0)
        (fun _ => 0, fun _ => 0) false true false = .error .assertionError ∧
    encode_text sparoModelExample (fun _ _ => 0) none (fun f => f) false
        (fun _ _ => 0) (fun _ _ => 0) (fun _ _ => 0) (fun f => f)
        (fun _ _ => 0) (fun f => f) (fun f => (f 0, f 0))
        false true false = .error .assertionError :=
  c9_sparo_requires_normalize sparoModelExample rfl (fun f => f) (fun f => f)
    (fun _ => 0) (fun _ => 0, fun _ => 0) (fun _ _ => 0) none (fun f => f)
    false (fun _ _ => 0) (fun _ _ => 0) (fun _ _ => 0) (fun f => f)
    (fun _ _ => 0) (fun f => f) (fun f => (f 0, f 0)) true false

end

/-! ## Legacy-checkpoint shape inference
(`build_model_from_openai_state_dict`, model.py lines 611-668)

Only the keys and tensor shapes of the legacy dict drive the inference, so
the dict is embedded as an association list from keys to shape lists. -/

/-- A legacy state dict reduced to its shape information. -/
abbrev ShapeDict := List (String × List Nat)

/-- Python `round(n ** 0.5)` on a nonnegative integer `n`: the integer
nearest to √n (`round`'s half-to-even rule never fires, since √n can never
be exactly half-way between integers; float error is irrelevant at the
table sizes in scope). -/
def roundSqrt (n : Nat) : Nat :=
  let r := Nat.sqrt n
  if n ≤ r * r + r then r else r + 1

/-- `"visual.proj" in state_dict` (line 616). -/
def sdVit (sd : ShapeDict) : Bool :=
  (List.lookup "visual.proj" sd).isSome

/-- `state_dict["visual.conv1.weight"].shape[0]` (line 619). -/
def sdVisionWidth (sd : ShapeDict) : Nat :=
  ((List.lookup "visual.conv1.weight" sd).getD []).headD 0

/-- Lines 620-621: the number of keys starting with `visual.` and ending
with `.attn.in_proj_weight`. -/
def sdVisionLayers (sd : ShapeDict) : Nat :=
  (sd.filter (fun kv =>
    pyStartsWith kv.1 "visual." && pyEndsWith kv.1 ".attn.in_proj_weight")).length

/-- `state_dict["visual.conv1.weight"].shape[-1]` (line 622). -/
def sdVisionPatchSize (sd : ShapeDict) : Nat :=
  ((List.lookup "visual.conv1.weight" sd).getD []).getLastD 0

/-- Lines 623: grid size back-solved from the position-embedding row count
(square grid plus one class token). -/
def sdGridSize (sd : ShapeDict) : Nat :=
  roundSqrt ((((List.lookup "visual.positional_embedding" sd).getD []).headD 0) - 1)

/-- Line 624: `image_size = vision_patch_size * grid_size`. -/
def sdImageSize (sd : ShapeDict) : Nat :=
  sdVisionPatchSize sd * sdGridSize sd

/-- Lines 626-627 (residual branch): number of distinct block indices in
stage `b`, i.e. of distinct third components of dotted keys starting with
`visual.layer{b}`. -/
def sdResNetCount (sd : ShapeDict) (b : Nat) : Nat :=
  ((sd.filter (fun kv => pyStartsWith kv.1 ("visual.layer" ++ toString b))).map
    (fun kv => (pySplit kv.1 '.').getD 2 "")).dedup.length

/-- The vision hyperparameters recovered by the adapter. -/
structure InferredVisionCfg where
  vit : Bool
  width : Nat
  layers : (Nat × Nat × Nat × Nat) ⊕ Nat
  patch_size : Option Nat
  image_size : Nat
  deriving Repr, DecidableEq

/-- The vision-side shape inference of `build_model_from_openai_state_dict`
(lines 616-633), including the square-grid assert of the residual branch
(line 632). -/
def infer_vision_cfg (sd : ShapeDict) : Except PyError InferredVisionCfg :=
  if sdVit sd then
    .ok { vit := true, width := sdVisionWidth sd,
          layers := .inr (sdVisionLayers sd),
          patch_size := some (sdVisionPatchSize sd),
          image_size := sdImageSize sd }
  else
    let pos_rows :=
      ((List.lookup "visual.attnpool.positional_embedding" sd).getD []).headD 0
    let output_width := roundSqrt (pos_rows - 1)
    if output_width * output_width + 1 = pos_rows then
      .ok { vit := false,
            width := ((List.lookup "visual.layer1.0.conv1.weight" sd).getD []).headD 0,
            layers := .inl (sdResNetCount sd 1, sdResNetCount sd 2,
              sdResNetCount sd 3, sdResNetCount sd 4),
            patch_size := none,
            image_size := output_width * 32 }
    else .error .assertionError

/-- C6: on every legacy dict shaped like a transformer-backbone export —
`visual.proj` present, `visual.conv1.weight` with first dimension 768 and
last dimension 16, twelve `visual.*.attn.in_proj_weight` keys, and a
`visual.positional_embedding` table of 14·14 + 1 rows — the adapter recovers
exactly width 768, layers 12, patch size 16 and image size 224. -/
theorem c6_vit_shape_inference (sd : ShapeDict)
    (hproj : (List.lookup "visual.proj" sd).isSome = true)
    (hconv : ∃ shp, List.lookup "visual.conv1.weight" sd = some shp ∧
      shp.headD 0 = 768 ∧ shp.getLastD 0 = 16)
    (hcount : sdVisionLayers sd = 12)
    (hpos : ∃ shp, List.lookup "visual.positional_embedding" sd = some shp ∧
      shp.headD 0 = 14 * 14 + 1) :
    infer_vision_cfg sd =
      .ok { vit := true, width := 768, layers := .inr 12,
            patch_size := some 16, image_size := 224 } := by
  obtain ⟨shp, hc, hc0, hclast⟩ := hconv
  obtain ⟨pshp, hp, hp0⟩ := hpos
  have hvit : sdVit sd = true := hproj
  have hw : sdVisionWidth sd = 768 := by
    unfold sdVisionWidth
    rw [hc]
    simpa using hc0
  have hpatch : sdVisionPatchSize sd = 16 := by
    unfold sdVisionPatchSize
    rw [hc]
    simpa using hclast
  have hgrid : sdGridSize sd = 14 := by
    unfold sdGridSize
    rw [hp]
    simp only [Option.getD_some, hp0]
    have h14 : Nat.sqrt (14 * 14 + 1 - 1) = 14 := by
      simpa using Nat.sqrt_eq 14
    unfold roundSqrt
    rw [h14]
    decide
  have himg : sdImageSize sd = 224 := by
    rw [sdImageSize, hpatch, hgrid]
  simp [infer_vision_cfg, hvit, hw, hcount, hpatch, himg]

/-- A synthetic transformer-backbone legacy dict: width 768, twelve
transformer blocks, patch 16, grid 14. -/
def openaiVitShapeDict : ShapeDict :=
  [("visual.proj", [768, 512]),
   ("visual.conv1.weight", [768, 3, 16, 16]),
   ("visual.positional_embedding", [197, 768]),
   ("visual.transformer.resblocks.0.attn.in_proj_weight", [2304, 768]),
   ("visual.transformer.resblocks.1.attn.in_proj_weight", [2304, 768]),
   ("visual.transformer.resblocks.2.attn.in_proj_weight", [2304, 768]),
   ("visual.transformer.resblocks.3.attn.in_proj_weight", [2304, 768]),
   ("visual.transformer.resblocks.4.attn.in_proj_weight", [2304, 768]),
   ("visual.transformer.resblocks.5.attn.in_proj_weight", [2304, 768]),
   ("visual.transformer.resblocks.6.attn.in_proj_weight", [2304, 768]),
   ("visual.transformer.resblocks.7.attn.in_proj_weight", [2304, 768]),
   ("visual.transformer.resblocks.8.attn.in_proj_weight", [2304, 768]),
   ("visual.transformer.resblocks.9.attn.in_proj_weight", [2304, 768]),
   ("visual.transformer.resblocks.10.attn.in_proj_weight", [2304, 768]),
   ("visual.transformer.resblocks.11.attn.in_proj_weight", [2304, 768]),
   ("text_projection", [512, 512]),
   ("positional_embedding", [77, 512]),
   ("token_embedding.weight", [49408, 512]),
   ("ln_final.weight", [512])]

/-- C6 witness: the inference evaluated on the synthetic dict. -/
theorem c6_vit_shape_inference_witness :
    infer_vision_cfg openaiVitShapeDict =
      .ok { vit := true, width := 768, layers := .inr 12,
            patch_size := some 16, image_size := 224 } :=
  c6_vit_shape_inference openaiVitShapeDict (by decide)
    ⟨[768, 3, 16, 16], by decide, by decide, by decide⟩ (by decide)
    ⟨[197, 768], by decide, by decide⟩

/-! ## Position-embedding resize (`resize_pos_embed`, model.py lines 687-718)

The table is a list of rows.  The spatial pipeline of lines 705-713 (reshape
the grid rows to the old square layout, `F.interpolate` to the target grid,
flatten) is embedded by the public contract of the out-of-scope
`F.interpolate` kernel: one output row per target grid cell, sampled from
the old grid; every statement proved below depends only on the row count,
not on the sampled values. -/

/-- Rows of a position-embedding table. -/
abbrev PosTable := List (List ℚ)

/-- The reshape / `F.interpolate` / flatten composite (lines 705-713),
embedded at the shape level with nearest sampling: `g.1 * g.2` output rows,
row `(r, c)` taken from old-grid cell `(r·og/g.1, c·og/g.2)`. -/
def interpolateGrid (old_grid : Nat) (g : Nat × Nat) (img : PosTable) : PosTable :=
  (List.range (g.1 * g.2)).map (fun i =>
    let r := i / g.2
    let c := i % g.2
    img.getD (r * old_grid / g.1 * old_grid + c * old_grid / g.2) [])

/-- `resize_pos_embed(state_dict, model)` for a target model whose visual
tower has a `grid_size` attribute `g` (the "grid-based" case; without that
attribute the function returns immediately, line 690).  `int(math.sqrt(n))`
is the floor square root. -/
def resize_pos_embed (sd : List (String × PosTable)) (g : Nat × Nat) :
    List (String × PosTable) :=
  match List.lookup "visual.positional_embedding" sd with
  | none => sd
  | some old_pos_embed =>
      let extra_tokens := 1
      let new_seq_len := g.1 * g.2 + extra_tokens
      if new_seq_len = old_pos_embed.length then sd
      else
        let pos_emb_tok := old_pos_embed.take extra_tokens
        let pos_emb_img := old_pos_embed.drop extra_tokens
        let old_grid_size := Nat.sqrt pos_emb_img.length
        setKey sd "visual.positional_embedding"
          (pos_emb_tok ++ interpolateGrid old_grid_size g pos_emb_img)

/-- Overwriting a present key makes a later lookup return the new value. -/
lemma lookup_setKey (sd : List (String × α)) (k : String) (v : α)
    (h : (List.lookup k sd).isSome = true) :
    List.lookup k (setKey sd k v) = some v := by
  induction sd with
  | nil => simp [List.lookup] at h
  | cons hd tl ih =>
      obtain ⟨a, b⟩ := hd
      by_cases hk : a = k
      · subst hk
        have hif : ((a, b).1 = a) := rfl
        simp only [setKey, List.map_cons, if_pos hif]
        rw [List.lookup]
        simp
      · have hbeq : (k == a) = false := by
          simp [beq_iff_eq]
          exact fun he => hk he.symm
        have hif : ¬((a, b).1 = k) := hk
        simp only [setKey, List.map_cons, if_neg hif] at *
        rw [List.lookup] at h ⊢
        rw [hbeq] at h ⊢
        exact ih h

/-- C7: for every state dict and grid-based target model `g`: if the dict
lacks the `visual.positional_embedding` key, or the stored table already has
`g.1 * g.2 + 1` rows, `resize_pos_embed` leaves the dict unchanged;
otherwise (for a stored table with at least its class-token row, its grid
rows forming a square) it rewrites that key to a table of exactly
`g.1 * g.2 + 1` rows whose first (class-token) row is the original first
row unchanged. -/
theorem c7_resize_pos_embed (sd : List (String × PosTable)) (g : Nat × Nat) :
    (List.lookup "visual.positional_embedding" sd = none →
      resize_pos_embed sd g = sd) ∧
    (∀ tbl, List.lookup "visual.positional_embedding" sd = some tbl →
      tbl.length = g.1 * g.2 + 1 → resize_pos_embed sd g = sd) ∧
    (∀ tbl, List.lookup "visual.positional_embedding" sd = some tbl →
      tbl.length ≠ g.1 * g.2 + 1 → 0 < tbl.length →
      (tbl.length - 1) = Nat.sqrt (tbl.length - 1) * Nat.sqrt (tbl.length - 1) →
      ∃ tbl2,
        List.lookup "visual.positional_embedding" (resize_pos_embed sd g) =
          some tbl2 ∧
        tbl2.length = g.1 * g.2 + 1 ∧
        tbl2.head? = tbl.head?) := by
  refine ⟨?_, ?_, ?_⟩
  · intro hnone
    unfold resize_pos_embed
    rw [hnone]
  · intro tbl hsome hlen
    unfold resize_pos_embed
    rw [hsome]
    simp [hlen]
  · intro tbl hsome hne hpos _hsq
    have hne2 : ¬(g.1 * g.2 + 1 = tbl.length) := fun hcontra => hne hcontra.symm
    simp only [resize_pos_embed, hsome, if_neg hne2]
    refine ⟨tbl.take 1 ++ interpolateGrid (Nat.sqrt (tbl.drop 1).length) g (tbl.drop 1),
      lookup_setKey sd _ _ (by rw [hsome]; rfl), ?_, ?_⟩
    · rw [List.length_append, List.length_take]
      have h1 : min 1 tbl.length = 1 := by omega
      rw [h1]
      unfold interpolateGrid
      rw [List.length_map, List.length_range]
      omega
    · cases tbl with
      | nil => simp at hpos
      | cons r0 rest => simp

/-- A concrete stored position-embedding table: one class-token row plus a
2×2 grid of rows. -/
def posTableExample : PosTable :=
  [[1, 2], [3, 4], [5, 6], [7, 8], [9, 10]]

/-- A state dict holding only the position-embedding table. -/
def posDictExample : List (String × PosTable) :=
  [("visual.positional_embedding", posTableExample)]

/-- C7 witness: resizing the 2×2-grid table to a 3×3 target grid yields a
10-row table that keeps the class-token row. -/
theorem c7_resize_pos_embed_witness :
    ∃ tbl2,
      List.lookup "visual.positional_embedding"
          (resize_pos_embed posDictExample (3, 3)) = some tbl2 ∧
      tbl2.length = (3, 3).1 * (3, 3).2 + 1 ∧
      tbl2.head? = posTableExample.head? :=
  (c7_resize_pos_embed posDictExample (3, 3)).2.2 posTableExample rfl
    (by decide) (by decide)
    (by
      have h2 : Nat.sqrt (posTableExample.length - 1) = 2 := by
        have h4 : posTableExample.length - 1 = 2 * 2 := by decide
        rw [h4, Nat.sqrt_eq]
      rw [h2]
      decide)

/-! ## Precision converter (`convert_weights_to_lp`, model.py lines 559-586)

`_convert_weights` is applied to every submodule; per recognized module
kind it overwrites the listed parameter tensors with `tensor.data.to(dtype)`.
`torch.Tensor.to` returns `self` unchanged when the tensor already has the
requested dtype; otherwise the runtime's elementwise casting kernel produces
the converted storage — that kernel is out of scope and enters as the
parameter `cast`.  The module tree is flattened into its `model.apply` visit
order. -/

/-- Torch dtypes involved in precision conversion. -/
inductive DType where
  | float32
  | float16
  | bfloat16
  deriving Repr, DecidableEq

/-- A parameter tensor: storage dtype plus element payload. -/
structure PTensor (α : Type) where
  dtype : DType
  data : List α
  deriving Repr, DecidableEq

/-- `tensor.data = tensor.data.to(dtype)`: identity when the dtype already
matches, elementwise cast (and dtype overwrite) otherwise. -/
def PTensor.to (cast : DType → DType → α → α) (d : DType) (t : PTensor α) :
    PTensor α :=
  if t.dtype = d then t
  else { dtype := d, data := t.data.map (cast t.dtype d) }

/-- The submodule kinds `_convert_weights` distinguishes, carrying exactly
the tensors it touches (`none` for absent or `None`-valued attributes):
`linearLike` covers `nn.Conv1d`/`nn.Conv2d`/`nn.Linear` (weight and optional
bias), `attentionLike` covers `nn.MultiheadAttention`/`Attention` (the four
projection weights, the in-projection bias and the two bias-like k/v
vectors), `textProjectionHolder` covers `CLIP`/`TextTransformer`
(`text_projection`), `visionTransformerModule` covers `VisionTransformer`
(`proj`), and `otherModule` every unrecognized kind, left untouched. -/
inductive PModule (α : Type) where
  | linearLike (weight : PTensor α) (bias : Option (PTensor α))
  | attentionLike (in_proj_weight q_proj_weight k_proj_weight v_proj_weight
      in_proj_bias bias_k bias_v : Option (PTensor α))
  | textProjectionHolder (text_projection : Option (PTensor α))
  | visionTransformerModule (proj : Option (PTensor α))
  | otherModule
  deriving Repr, DecidableEq

/-- `_convert_weights(l)` on one visited submodule. -/
def _convert_weights (cast : DType → DType → α → α) (d : DType) :
    PModule α → PModule α
  | .linearLike w b =>
      .linearLike (w.to cast d) (b.map (PTensor.to cast d))
  | .attentionLike ipw qpw kpw vpw ipb bk bv =>
      .attentionLike (ipw.map (PTensor.to cast d)) (qpw.map (PTensor.to cast d))
        (kpw.map (PTensor.to cast d)) (vpw.map (PTensor.to cast d))
        (ipb.map (PTensor.to cast d)) (bk.map (PTensor.to cast d))
        (bv.map (PTensor.to cast d))
  | .textProjectionHolder tp => .textProjectionHolder (tp.map (PTensor.to cast d))
  | .visionTransformerModule p => .visionTransformerModule (p.map (PTensor.to cast d))
  | .otherModule => .otherModule

/-- `convert_weights_to_lp(model, dtype)`: `model.apply(_convert_weights)`
over the flattened visit order. -/
def convert_weights_to_lp (cast : DType → DType → α → α)
    (model : List (PModule α)) (dtype : DType) : List (PModule α) :=
  model.map (_convert_weights cast dtype)

/-- Converting a tensor to a dtype it already has (after a first conversion)
returns it bit-unchanged. -/
lemma PTensor.to_to (cast : DType → DType → α → α) (d : DType) (t : PTensor α) :
    (t.to cast d).to cast d = t.to cast d := by
  unfold PTensor.to
  by_cases h : t.dtype = d
  · simp [h]
  · simp [h]

/-- Lifted to optional attribute tensors. -/
lemma optionTo_to (cast : DType → DType → α → α) (d : DType)
    (o : Option (PTensor α)) :
    o.map (PTensor.to cast d ∘ PTensor.to cast d) =
      o.map (PTensor.to cast d) := by
  cases o with
  | none => rfl
  | some t => simp [PTensor.to_to]

/-- C8: precision conversion is idempotent — for every model and target
dtype, applying `convert_weights_to_lp` twice with the same dtype yields
parameters bit-identical to applying it once (every touched tensor already
carries the target dtype after the first pass, and `Tensor.to` is the
identity on a tensor of the requested dtype). -/
theorem c8_convert_weights_idempotent {α : Type}
    (cast : DType → DType → α → α) (model : List (PModule α)) (dtype : DType) :
    convert_weights_to_lp cast (convert_weights_to_lp cast model dtype) dtype =
      convert_weights_to_lp cast model dtype := by
  unfold convert_weights_to_lp
  rw [List.map_map]
  congr 1
  funext m
  cases m with
  | linearLike w b =>
      simp [Function.comp, _convert_weights, PTensor.to_to, optionTo_to]
  | attentionLike ipw qpw kpw vpw ipb bk bv =>
      simp [Function.comp, _convert_weights, optionTo_to]
  | textProjectionHolder tp =>
      simp [Function.comp, _convert_weights, optionTo_to]
  | visionTransformerModule p =>
      simp [Function.comp, _convert_weights, optionTo_to]
  | otherModule => rfl
